import Mathlib

/-
Shallow embedding of the `lamar` vector-arithmetic library
(src/src/vector/{vec2,vec3,vec4}.rs).

The Rust element type is a generic `T: Num + Copy` (four arithmetic
operators plus identities).  We embed it as a type `α` carrying the
corresponding operations; theorems that need algebraic laws assume
`CommRing α` (the exact-arithmetic instantiations of `Num`: the integer
types away from overflow).  The Rust `#[derive(PartialEq)]` structural
equality is structure equality in Lean.  Rust integer `/` truncates
toward zero, which is `Int` division (`Int.div`) in Lean, so the
division claims are stated at `α = Int`.
-/

namespace Lamar

/-- Embedding of `struct Vec2<T> { x: T, y: T }` (vec2.rs). -/
structure Vec2 (α : Type) where
  x : α
  y : α
deriving DecidableEq, Repr

/-- Embedding of `struct Vec3<T> { x: T, y: T, z: T }` (vec3.rs). -/
structure Vec3 (α : Type) where
  x : α
  y : α
  z : α
deriving DecidableEq, Repr

/-- Embedding of `struct Vec4<T> { x: T, y: T, z: T, w: T }` (vec4.rs). -/
structure Vec4 (α : Type) where
  x : α
  y : α
  z : α
  w : α
deriving DecidableEq, Repr

variable {α : Type}

/-- `Vec2::new(x, y)` (vec2.rs line 23). -/
def Vec2.new (x y : α) : Vec2 α := ⟨x, y⟩

/-- `Vec3::new(x, y, z)` (vec3.rs line 24). -/
def Vec3.new (x y z : α) : Vec3 α := ⟨x, y, z⟩

/-- `Vec4::new(x, y, z, w)` (vec4.rs line 25). -/
def Vec4.new (x y z w : α) : Vec4 α := ⟨x, y, z, w⟩

/-- `Vec2::dot` (vec2.rs line 30): `self.x * rhs.x + self.y * rhs.y`. -/
def Vec2.dot [Add α] [Mul α] (a b : Vec2 α) : α :=
  a.x * b.x + a.y * b.y

/-- `Vec2::cross` (vec2.rs line 37): `self.x * rhs.y - self.y * rhs.x`,
a scalar. -/
def Vec2.cross [Mul α] [Sub α] (a b : Vec2 α) : α :=
  a.x * b.y - a.y * b.x

/-- `Vec3::dot` (vec3.rs line 31):
`self.x * rhs.x + self.y * rhs.y + self.z * rhs.z`. -/
def Vec3.dot [Add α] [Mul α] (a b : Vec3 α) : α :=
  a.x * b.x + a.y * b.y + a.z * b.z

/-- `Vec3::cross` (vec3.rs lines 39-45), componentwise from the source. -/
def Vec3.cross [Mul α] [Sub α] (a b : Vec3 α) : Vec3 α :=
  { x := a.y * b.z - a.z * b.y
    y := a.z * b.x - a.x * b.z
    z := a.x * b.y - a.y * b.x }

/-- `Vec4::dot` (vec4.rs line 32):
`self.x * rhs.x + self.y * rhs.y + self.z * rhs.z + self.w * rhs.w`. -/
def Vec4.dot [Add α] [Mul α] (a b : Vec4 α) : α :=
  a.x * b.x + a.y * b.y + a.z * b.z + a.w * b.w

/-- `impl Vec2<f32> { fn zero() }` (vec2.rs lines 44-49): all fields
`0.0`, the additive identity.  The source restricts it to `f32`; the
embedding takes any `α` with a zero. -/
def Vec2.zero [Zero α] : Vec2 α := ⟨0, 0⟩

/-- `impl Vec4<f32> { fn zero() }` (vec4.rs lines 42-52): all fields
`0.0`.  There is no corresponding `impl Vec3<f32>` in vec3.rs, so the
embedding defines no `Vec3.zero`. -/
def Vec4.zero [Zero α] : Vec4 α := ⟨0, 0, 0, 0⟩

/-- `impl Add for Vec2` (vec2.rs lines 60-72). -/
def Vec2.add [Add α] (a b : Vec2 α) : Vec2 α :=
  ⟨a.x + b.x, a.y + b.y⟩

/-- `impl Sub for Vec2` (vec2.rs lines 106-118). -/
def Vec2.sub [Sub α] (a b : Vec2 α) : Vec2 α :=
  ⟨a.x - b.x, a.y - b.y⟩

/-- `impl Mul for Vec2` (vec2.rs lines 152-161): `self.cross(&other)`,
output type `T` (a scalar, not a vector). -/
def Vec2.mulVec [Mul α] [Sub α] (a b : Vec2 α) : α :=
  a.cross b

/-- `impl Mul<T> for Vec2` (vec2.rs lines 172-184). -/
def Vec2.mulScalar [Mul α] (a : Vec2 α) (s : α) : Vec2 α :=
  ⟨a.x * s, a.y * s⟩

/-- `impl Div<T> for Vec2` (vec2.rs lines 195-207), at an integer
element type: Rust integer `/` truncates toward zero, i.e. `Int.tdiv`. -/
def Vec2.divScalar (a : Vec2 Int) (s : Int) : Vec2 Int :=
  ⟨a.x.tdiv s, a.y.tdiv s⟩

/-- `impl Add for Vec3` (vec3.rs lines 58-71). -/
def Vec3.add [Add α] (a b : Vec3 α) : Vec3 α :=
  ⟨a.x + b.x, a.y + b.y, a.z + b.z⟩

/-- `impl Sub for Vec3` (vec3.rs lines 104-117). -/
def Vec3.sub [Sub α] (a b : Vec3 α) : Vec3 α :=
  ⟨a.x - b.x, a.y - b.y, a.z - b.z⟩

/-- `impl Mul for Vec3` (vec3.rs lines 149-158): `self.cross(&other)`. -/
def Vec3.mulVec [Mul α] [Sub α] (a b : Vec3 α) : Vec3 α :=
  a.cross b

/-- `impl Mul<T> for Vec3` (vec3.rs lines 168-181). -/
def Vec3.mulScalar [Mul α] (a : Vec3 α) (s : α) : Vec3 α :=
  ⟨a.x * s, a.y * s, a.z * s⟩

/-- `impl Div<T> for Vec3` (vec3.rs lines 191-204), at an integer
element type (truncating division, `Int.tdiv`). -/
def Vec3.divScalar (a : Vec3 Int) (s : Int) : Vec3 Int :=
  ⟨a.x.tdiv s, a.y.tdiv s, a.z.tdiv s⟩

/-- `impl Add for Vec4` (vec4.rs lines 63-77). -/
def Vec4.add [Add α] (a b : Vec4 α) : Vec4 α :=
  ⟨a.x + b.x, a.y + b.y, a.z + b.z, a.w + b.w⟩

/-- `impl Sub for Vec4` (vec4.rs lines 113-127). -/
def Vec4.sub [Sub α] (a b : Vec4 α) : Vec4 α :=
  ⟨a.x - b.x, a.y - b.y, a.z - b.z, a.w - b.w⟩

/-- `impl Mul<T> for Vec4` (vec4.rs lines 163-177).  There is no
`impl Mul<Vec4> for Vec4` in the source (4D cross is unsupported). -/
def Vec4.mulScalar [Mul α] (a : Vec4 α) (s : α) : Vec4 α :=
  ⟨a.x * s, a.y * s, a.z * s, a.w * s⟩

/-- `impl Div<T> for Vec4` (vec4.rs lines 188-202), at an integer
element type (truncating division, `Int.tdiv`). -/
def Vec4.divScalar (a : Vec4 Int) (s : Int) : Vec4 Int :=
  ⟨a.x.tdiv s, a.y.tdiv s, a.z.tdiv s, a.w.tdiv s⟩

/-- `impl Display for Vec2` (vec2.rs lines 209-216):
`write!(f, "x: \x7b\x7d\ny: \x7b\x7d", self.x, self.y)`, with `s`
standing for the Display of the element type. -/
def Vec2.display (s : α → String) (v : Vec2 α) : String :=
  "x: " ++ s v.x ++ "\ny: " ++ s v.y

/-- `impl Display for Vec3` (vec3.rs lines 206-213):
`write!(f, "x: \x7b\x7d, y: \x7b\x7d", self.x, self.y)` — the source
formats only the `x` and `y` fields and never mentions `z`. -/
def Vec3.display (s : α → String) (v : Vec3 α) : String :=
  "x: " ++ s v.x ++ ", y: " ++ s v.y

/-- `impl Display for Vec4` (vec4.rs lines 204-215):
all four fields, newline-separated. -/
def Vec4.display (s : α → String) (v : Vec4 α) : String :=
  "x: " ++ s v.x ++ "\ny: " ++ s v.y ++ "\nz: " ++ s v.z ++ "\nw: " ++ s v.w

end Lamar

open Lamar

/-- Claim C1 (code evaluated at the failing input): the Vec3 Display
implementation in vec3.rs prints only the `x` and `y` fields, so
formatting `Vec3(1, 2, 3)` yields `"x: 1, y: 2"` with no `z` entry,
while Vec2 and Vec4 do enumerate every field in declared order. -/
theorem c1_vec3_display_omits_z :
    Vec3.display toString (Vec3.new (1 : Int) 2 3) = "x: 1, y: 2" ∧
    Vec2.display toString (Vec2.new (1 : Int) 2) = "x: 1\ny: 2" ∧
    Vec4.display toString (Vec4.new (1 : Int) 2 3 4) = "x: 1\ny: 2\nz: 3\nw: 4" :=
  ⟨rfl, rfl, rfl⟩

/-- Claim C2, the part the source provides: `Vec2::zero` and
`Vec4::zero` set every field to the additive identity.  vec3.rs defines
no `zero` constructor at all, so the claim as stated (all three types)
fails on the code. -/
theorem c2_zero_all_fields_zero (α : Type) [Zero α] :
    (Vec2.zero : Vec2 α) = Vec2.new 0 0 ∧
    (Vec4.zero : Vec4 α) = Vec4.new 0 0 0 0 :=
  ⟨rfl, rfl⟩

/-- Claim C3: for all Vec3 vectors a, b over the same element type,
`a.cross b` is the vector (a.y*b.z - a.z*b.y, a.z*b.x - a.x*b.z,
a.x*b.y - a.y*b.x), and the `*` operator on two Vec3 operands returns
exactly `a.cross b`. -/
theorem c3_vec3_cross_formula_and_mul {α : Type} [Mul α] [Sub α]
    (a b : Vec3 α) :
    a.cross b =
      Vec3.new (a.y * b.z - a.z * b.y) (a.z * b.x - a.x * b.z)
        (a.x * b.y - a.y * b.x) ∧
    a.mulVec b = a.cross b :=
  ⟨rfl, rfl⟩

/-- Claim C4: for all Vec2 vectors a, b over the same element type,
`a.cross b` is the scalar a.x*b.y - a.y*b.x, and the `*` operator on
two Vec2 operands returns exactly that scalar. -/
theorem c4_vec2_cross_formula_and_mul {α : Type} [Mul α] [Sub α]
    (a b : Vec2 α) :
    a.cross b = a.x * b.y - a.y * b.x ∧ a.mulVec b = a.cross b :=
  ⟨rfl, rfl⟩

/-- Claim C6: the 3D cross product is anti-commutative — `a.cross b`
is the componentwise negation of `b.cross a` — and the cross product of
any vector with itself is the zero vector `Vec3::new(0, 0, 0)`. -/
theorem c6_vec3_cross_anticomm_self {α : Type} [CommRing α]
    (a b : Vec3 α) :
    a.cross b =
      Vec3.new (-(b.cross a).x) (-(b.cross a).y) (-(b.cross a).z) ∧
    a.cross a = Vec3.new 0 0 0 := by
  constructor
  · simp only [Vec3.cross, Vec3.new, Vec3.mk.injEq]
    exact ⟨by ring, by ring, by ring⟩
  · simp only [Vec3.cross, Vec3.new, Vec3.mk.injEq]
    exact ⟨by ring, by ring, by ring⟩

/-- Claim C7: the dot product is commutative for all three arities:
`a.dot b = b.dot a`, where dot is the sum of the pairwise component
products over all fields. -/
theorem c7_dot_comm {α : Type} [CommRing α] :
    (∀ a b : Vec2 α, a.dot b = b.dot a) ∧
    (∀ a b : Vec3 α, a.dot b = b.dot a) ∧
    (∀ a b : Vec4 α, a.dot b = b.dot a) := by
  refine ⟨fun a b => ?_, fun a b => ?_, fun a b => ?_⟩ <;>
    simp only [Vec2.dot, Vec3.dot, Vec4.dot] <;> ring

/-- Claim C8: vector addition is commutative and associative for all
three arities. -/
theorem c8_add_comm_assoc {α : Type} [CommRing α] :
    (∀ a b c : Vec2 α, a.add b = b.add a ∧
      (a.add b).add c = a.add (b.add c)) ∧
    (∀ a b c : Vec3 α, a.add b = b.add a ∧
      (a.add b).add c = a.add (b.add c)) ∧
    (∀ a b c : Vec4 α, a.add b = b.add a ∧
      (a.add b).add c = a.add (b.add c)) := by
  refine ⟨fun a b c => ⟨?_, ?_⟩, fun a b c => ⟨?_, ?_⟩,
    fun a b c => ⟨?_, ?_⟩⟩ <;>
      simp only [Vec2.add, Vec3.add, Vec4.add, Vec2.mk.injEq,
        Vec3.mk.injEq, Vec4.mk.injEq] <;>
      and_intros <;> ring

/-- Claim C9: for integer element types, a nonzero scalar s, and
componentwise exact divisibility of a * s by s (which holds since each
component of a * s is a multiple of s), the scalar multiply/divide
round-trip holds: (a * s) / s = a, for all three arities. -/
theorem c9_mul_div_round_trip (a2 : Vec2 Int) (a3 : Vec3 Int)
    (a4 : Vec4 Int) (s : Int) (hs : s ≠ 0) :
    (a2.mulScalar s).divScalar s = a2 ∧
    (a3.mulScalar s).divScalar s = a3 ∧
    (a4.mulScalar s).divScalar s = a4 := by
  obtain ⟨x2, y2⟩ := a2
  obtain ⟨x3, y3, z3⟩ := a3
  obtain ⟨x4, y4, z4, w4⟩ := a4
  refine ⟨?_, ?_, ?_⟩ <;>
    simp only [Vec2.mulScalar, Vec3.mulScalar, Vec4.mulScalar,
      Vec2.divScalar, Vec3.divScalar, Vec4.divScalar, Vec2.mk.injEq,
      Vec3.mk.injEq, Vec4.mk.injEq] <;>
    and_intros <;> exact Int.mul_tdiv_cancel _ hs

/-- Witness for C9 at s = 5 and concrete integer vectors. -/
theorem c9_mul_div_round_trip_witness :
    (5 : Int) ≠ 0 ∧
    ((Vec2.new (2 : Int) 3).mulScalar 5).divScalar 5 = Vec2.new 2 3 ∧
    ((Vec3.new (8 : Int) 16 32).mulScalar 5).divScalar 5 =
      Vec3.new 8 16 32 ∧
    ((Vec4.new (1 : Int) (-2) 3 4).mulScalar 5).divScalar 5 =
      Vec4.new 1 (-2) 3 4 :=
  ⟨by decide,
    c9_mul_div_round_trip (Vec2.new 2 3) (Vec3.new 8 16 32)
      (Vec4.new 1 (-2) 3 4) 5 (by decide)⟩

/-- Claim C10: over a signed exact-integer element type, the dot
product of a vector with itself is non-negative, being a sum of
squares of the components, for all three arities. -/
theorem c10_dot_self_nonneg :
    (∀ a : Vec2 Int, 0 ≤ a.dot a) ∧
    (∀ a : Vec3 Int, 0 ≤ a.dot a) ∧
    (∀ a : Vec4 Int, 0 ≤ a.dot a) := by
  refine ⟨fun a => ?_, fun a => ?_, fun a => ?_⟩ <;>
    simp only [Vec2.dot, Vec3.dot, Vec4.dot]
  · nlinarith [mul_self_nonneg a.x, mul_self_nonneg a.y]
  · nlinarith [mul_self_nonneg a.x, mul_self_nonneg a.y,
      mul_self_nonneg a.z]
  · nlinarith [mul_self_nonneg a.x, mul_self_nonneg a.y,
      mul_self_nonneg a.z, mul_self_nonneg a.w]
